import Mathlib

/-
  Verification development for the FlowState repository.

  Shallow embedding of the AI-pipeline core:
    - src/lib/safe-parse.js      (parseInspectorResponse, parseSurgeonResponse)
    - overlay mergeDefects       (src/unnamed/part_001)
    - src/lib/usage-tracker.js   (UsageTracker: track, checkBudget, setBudget,
                                  resetSession, getDefaultData, PRICING)
    - src/server.js              (/api/generate-asset budget gate)
    - orchestrator runFlowState  (src/unnamed/part_001)

  Conventions of the embedding:
    - JavaScript runtime values produced by JSON.parse are modelled by the
      inductive type `Js` below (plus `undefined` for missing properties).
    - JSON.parse itself is an external library function; its outcome is
      modelled as `Option Js` (`none` = the parse threw), so theorems
      quantified over the parse outcome cover every input string.
    - JS numbers are modelled as rationals.  The monetary constants used by
      the usage tracker (0.00025, 0.0005, 0.0001, 0.0002, 0.02, 10.00, 0.01)
      are such that every arithmetic step appearing in the verified claims is
      exact in IEEE double precision as well, so the rational model agrees
      with the JS evaluation on those claims.
    - Exceptions are modelled with `Except String`; a JS `try/catch` becomes
      a `match` on the `Except` value.
-/

namespace FlowState

/-! Section: JavaScript value model -/

/-- Model of a JavaScript runtime value as produced by `JSON.parse`, plus
`undefined` (the result of reading an absent property). -/
inductive Js where
  | null : Js
  | undefined : Js
  | bool (b : Bool) : Js
  | num (q : ℚ) : Js
  | str (s : String) : Js
  | arr (elems : List Js) : Js
  | obj (fields : List (String × Js)) : Js

/-- JS truthiness: `null`, `undefined`, `false`, `0` and `""` are falsy;
everything else (including any array or object) is truthy.  (`NaN` cannot
arise from `JSON.parse`, so it is not modelled.) -/
def Js.truthy : Js → Bool
  | .null => false
  | .undefined => false
  | .bool b => b
  | .num q => decide (q ≠ 0)
  | .str s => decide (s ≠ "")
  | .arr _ => true
  | .obj _ => true

/-- The JS expression `a || b`. -/
def jsOr (a b : Js) : Js := if a.truthy then a else b

/-- Property read `v.k`.  Reading a property of `null` or `undefined` throws a
`TypeError`; reading an absent key of an object yields `undefined`; reading a
property of a primitive yields `undefined` for every key the source code uses
(none of the accessed keys is a built-in primitive property). -/
def Js.getProp : Js → String → Except String Js
  | .null, k => Except.error ("TypeError: cannot read properties of null (reading " ++ k ++ ")")
  | .undefined, k => Except.error ("TypeError: cannot read properties of undefined (reading " ++ k ++ ")")
  | .obj fields, k => Except.ok ((fields.lookup k).getD Js.undefined)
  | _, _ => Except.ok Js.undefined

/-- Returns `true` iff the value is a JS boolean (`typeof v === "boolean"`). -/
def Js.isBool : Js → Bool
  | .bool _ => true
  | _ => false

/-- Returns `true` iff the value is a JS string (`typeof v === "string"`). -/
def Js.isStr : Js → Bool
  | .str _ => true
  | _ => false

/-- Returns `true` iff the value is JS `null`. -/
def Js.isNull : Js → Bool
  | .null => true
  | _ => false

/-! Section: src/lib/safe-parse.js : parseInspectorResponse -/

/-- One normalized defect of the inspector report (the object literal built in
`parseInspectorResponse`).  Field values are JS values: the source only
applies `||`-defaulting, so non-string raw values can flow through. -/
structure DefectOut where
  id : Js
  element : Js
  element_text : Js
  selector_hint : Js
  issue : Js
  expected : Js
  why : Js

/-- The `data` object returned by `parseInspectorResponse`.  `looks_good` and
`needs_asset_generation` are validated JS values; `visual_defects` is an array
by construction (result of `.map` on a validated array, or the fallback
literal). -/
structure ReportData where
  looks_good : Js
  visual_defects : List DefectOut
  needs_asset_generation : Js
  asset_generation_prompt : Js

/-- The `{ success, error?, data }` result of `parseInspectorResponse`. -/
structure InspParseResult where
  success : Bool
  error : Option String
  data : ReportData

/-- Normalization of one element of `visual_defects` (safe-parse.js lines
31-55).  A bare string becomes the legacy shape; reading a property of a
`null` element throws (caught by the enclosing `try`); any other value gets
field-by-field `||` defaulting.  `index` is the 0-based map index. -/
def normalizeDefect (index : ℕ) (defect : Js) : Except String DefectOut :=
  match defect with
  | Js.str s =>
      Except.ok
        { id := Js.str ("defect-" ++ toString (index + 1))
          element := Js.str ("unknown")
          element_text := Js.null
          selector_hint := Js.str ("*")
          issue := Js.str s
          expected := Js.null
          why := Js.null }
  | d =>
      match d.getProp ("id") with
      | Except.error e => Except.error e
      | Except.ok jid =>
        match d.getProp ("element") with
        | Except.error e => Except.error e
        | Except.ok jel =>
          match d.getProp ("element_text") with
          | Except.error e => Except.error e
          | Except.ok jet =>
            match d.getProp ("selector_hint") with
            | Except.error e => Except.error e
            | Except.ok jsh =>
              match d.getProp ("issue") with
              | Except.error e => Except.error e
              | Except.ok jis =>
                match d.getProp ("description") with
                | Except.error e => Except.error e
                | Except.ok jde =>
                  match d.getProp ("expected") with
                  | Except.error e => Except.error e
                  | Except.ok jex =>
                    match d.getProp ("why") with
                    | Except.error e => Except.error e
                    | Except.ok jwh =>
                      Except.ok
                        { id := jsOr jid (Js.str ("defect-" ++ toString (index + 1)))
                          element := jsOr jel (Js.str ("unknown"))
                          element_text := jsOr jet Js.null
                          selector_hint := jsOr jsh (Js.str ("*"))
                          issue := jsOr jis (jsOr jde (Js.str ("Unknown issue")))
                          expected := jsOr jex Js.null
                          why := jsOr jwh Js.null }

/-- The map `visual_defects.map(normalizeDefect)` with the 1-based ids derived from the
running index; the first thrown `TypeError` aborts the whole map. -/
def normalizeDefects : ℕ → List Js → Except String (List DefectOut)
  | _, [] => Except.ok []
  | i, d :: ds =>
      match normalizeDefect i d with
      | Except.error e => Except.error e
      | Except.ok x =>
        match normalizeDefects (i + 1) ds with
        | Except.error e => Except.error e
        | Except.ok xs => Except.ok (x :: xs)

/-- The body of the `try` block of `parseInspectorResponse` (safe-parse.js
lines 8-65), applied to the outcome of `JSON.parse` on the fence-stripped
text (`none` = the parse threw).  Validates the three required fields in
source order, then maps the defects, then builds the result object. -/
def parseCore (parsed? : Option Js) : Except String ReportData :=
  match parsed? with
  | none => Except.error ("Unexpected token in JSON")
  | some parsed =>
    match parsed.getProp ("looks_good") with
    | Except.error e => Except.error e
    | Except.ok lg =>
      match lg with
      | Js.bool lgb =>
        match parsed.getProp ("visual_defects") with
        | Except.error e => Except.error e
        | Except.ok vd =>
          match vd with
          | Js.arr rawDefects =>
            match parsed.getProp ("needs_asset_generation") with
            | Except.error e => Except.error e
            | Except.ok na =>
              match na with
              | Js.bool nab =>
                match normalizeDefects 0 rawDefects with
                | Except.error e => Except.error e
                | Except.ok outs =>
                  match parsed.getProp ("asset_generation_prompt") with
                  | Except.error e => Except.error e
                  | Except.ok agp =>
                    Except.ok
                      { looks_good := Js.bool lgb
                        visual_defects := outs
                        needs_asset_generation := Js.bool nab
                        asset_generation_prompt := jsOr agp Js.null }
              | _ => Except.error ("Missing or invalid needs_asset_generation field (expected boolean)")
          | _ => Except.error ("Missing or invalid visual_defects field (expected array)")
      | _ => Except.error ("Missing or invalid looks_good field (expected boolean)")

/-- The synthetic single defect of the parse-error fallback. -/
def parseErrorDefect : DefectOut :=
  { id := Js.str ("defect-parse-error")
    element := Js.str ("unknown")
    element_text := Js.null
    selector_hint := Js.str ("*")
    issue := Js.str ("⚠️ Parse error — manual review required")
    expected := Js.null
    why := Js.null }

/-- The fallback `data` object returned by the `catch` block. -/
def fallbackData : ReportData :=
  { looks_good := Js.bool false
    visual_defects := [parseErrorDefect]
    needs_asset_generation := Js.bool false
    asset_generation_prompt := Js.null }

/-- Function `parseInspectorResponse` (safe-parse.js lines 7-89): run the `try` body;
on any thrown error return the fallback report. -/
def parseInspectorResponse (parsed? : Option Js) : InspParseResult :=
  match parseCore parsed? with
  | Except.ok d => { success := true, error := none, data := d }
  | Except.error e => { success := false, error := some e, data := fallbackData }

/-! Section: src/lib/safe-parse.js : parseSurgeonResponse -/

/-- The `{ success, code, error? }` result of `parseSurgeonResponse`. -/
structure SurgeonResult where
  success : Bool
  code : Option String
  error : Option String
deriving DecidableEq

/-- The backtick character (written via its code point). -/
def backtickChar : Char := Char.ofNat 96

/-- The three-backtick fence. -/
def fenceChars : List Char := [backtickChar, backtickChar, backtickChar]

/-- JS `\s` (the whitespace characters relevant to the sources: ASCII
whitespace plus NBSP and BOM). -/
def isJsSpace (c : Char) : Bool :=
  c = ' ' || c = Char.ofNat 9 || c = Char.ofNat 10 || c = Char.ofNat 11 ||
  c = Char.ofNat 12 || c = Char.ofNat 13 || c = Char.ofNat 160 || c = Char.ofNat 65279

/-- JS `String.prototype.trim`. -/
def jsTrim (s : String) : String :=
  String.mk (((s.data.dropWhile isJsSpace).reverse.dropWhile isJsSpace).reverse)

/-- The language tags of the fence regex
`/```(?:jsx?|tsx?|javascript|typescript)?\s*([\s\S]*?)```/` in the
backtracking order the regex engine tries them (the optional group last). -/
def fenceLangs : List (List Char) :=
  [("jsx").data, ("js").data, ("tsx").data, ("ts").data,
   ("javascript").data, ("typescript").data, []]

/-- The lazy capture `([\s\S]*?)` followed by the closing fence: the characters
up to the first subsequent fence, or `none` if no closing fence exists. -/
def findCapture : List Char → Option (List Char)
  | [] => none
  | c :: cs =>
      if fenceChars.isPrefixOf (c :: cs) then some []
      else (findCapture cs).map (fun cap => c :: cap)

/-- Matching attempt at a position just after an opening fence: consume the
first language tag that matches (letters only, so the choice cannot hide a
closing fence), then greedy `\s*`, then the lazy capture. -/
def matchAfterFence (cs : List Char) : Option (List Char) :=
  let lang := (fenceLangs.find? (fun l => l.isPrefixOf cs)).getD []
  findCapture ((cs.drop lang.length).dropWhile isJsSpace)

/-- Leftmost match of the fence regex: scan positions left to right; at each
opening fence try `matchAfterFence`, else advance one character. -/
def findFenceMatch : List Char → Option (List Char)
  | [] => none
  | c :: cs =>
      if fenceChars.isPrefixOf (c :: cs) then
        match matchAfterFence ((c :: cs).drop 3) with
        | some cap => some cap
        | none => findFenceMatch cs
      else findFenceMatch cs

/-- Function `parseSurgeonResponse` (safe-parse.js lines 96-125): trim, extract the
first fenced block if any, reject code shorter than 10 characters. -/
def parseSurgeonResponse (text : String) : SurgeonResult :=
  let code0 := jsTrim text
  let code :=
    match findFenceMatch code0.data with
    | some cap => jsTrim (String.mk cap)
    | none => code0
  if code.length < 10 then
    { success := false, code := none, error := some ("Response too short to be valid code") }
  else
    { success := true, code := some code, error := none }

/-! Section: Overlay mergeDefects (src/unnamed/part_001 lines 3977-3991) -/

/-- A local heuristic defect as fed to `mergeDefects`: only its `issue` field
is read there (`d.issue?.…`, optional chaining), so the model keeps exactly
that field; `none` models an absent/undefined issue.  The heuristic analyzer
always sets a string issue, but the model does not assume it. -/
structure HDefect where
  issue : Option String
deriving DecidableEq

/-- An element of the merged defect list: remote (API) defects may be bare
strings or rich objects; local defects are objects. -/
inductive MergeItem where
  | strD (s : String) : MergeItem
  | objD (d : HDefect) : MergeItem
deriving DecidableEq

/-- The dedup key: `issue.toLowerCase().substring(0, 30)`. -/
def dedupKey (s : String) : String := String.mk (s.toLower.data.take 30)

/-- Dedup key of a local defect (`d.issue?.toLowerCase().substring(0, 30)`,
`none` when `issue` is absent). -/
def localKey (d : HDefect) : Option String := d.issue.map dedupKey

/-- Dedup key of a remote defect
(`(typeof apiDefect === "string" ? apiDefect : apiDefect.issue)?.…`). -/
def apiKey : MergeItem → Option String
  | .strD s => some (dedupKey s)
  | .objD d => d.issue.map dedupKey

/-- Function `mergeDefects(local, api)`: start from a copy of the local list, build the
set of local keys once, then append each API defect whose key is not in that
set (the set is not extended while appending). -/
def mergeDefects (locals : List HDefect) (api : List MergeItem) : List MergeItem :=
  let merged := locals.map MergeItem.objD
  let localIssues := locals.map localKey
  api.foldl (fun acc a => if localIssues.contains (apiKey a) then acc else acc ++ [a]) merged

/-! Section: src/lib/usage-tracker.js -/

/-- One entry of the `PRICING` table; absent fields are `none`
(e.g. the image model has no `input`/`output` price). -/
structure Pricing where
  input : Option ℚ
  output : Option ℚ
  perImage : Option ℚ

/-- The `PRICING` table (usage-tracker.js lines 13-25). -/
def PRICING (model : String) : Option Pricing :=
  if model = "gemini-3-pro-preview" then
    some { input := some ((0.00025 : ℚ)), output := some ((0.0005 : ℚ)), perImage := none }
  else if model = "gemini-2.0-flash-preview-image-generation" then
    some { input := none, output := none, perImage := some ((0.02 : ℚ)) }
  else if model = "gemini-2.0-flash" then
    some { input := some ((0.0001 : ℚ)), output := some ((0.0002 : ℚ)), perImage := none }
  else none

/-- Lookup `PRICING[model] || PRICING[gemini-2.0-flash]` (table entries are objects,
hence truthy; only an absent key falls back). -/
def lookupPricing (model : String) : Pricing :=
  (PRICING model).getD { input := some ((0.0001 : ℚ)), output := some ((0.0002 : ℚ)), perImage := none }

/-- JS `x || d` on an optional number: `undefined` and `0` are falsy. -/
def numOr (o : Option ℚ) (d : ℚ) : ℚ :=
  match o with
  | some x => if x = 0 then d else x
  | none => d

/-- Record `data.session` of the usage ledger. -/
structure SessionData where
  startTime : String
  budget : ℚ
  budgetUsed : ℚ
deriving DecidableEq

/-- Record `data.totals` of the usage ledger. -/
structure Totals where
  apiCalls : ℕ
  inputTokens : ℚ
  outputTokens : ℚ
  imagesGenerated : ℕ
  estimatedCost : ℚ
deriving DecidableEq

/-- A per-model accumulator of `data.byModel`. -/
structure ModelStats where
  calls : ℕ
  inputTokens : ℚ
  outputTokens : ℚ
  cost : ℚ
deriving DecidableEq

/-- A per-endpoint accumulator of `data.byEndpoint`. -/
structure EndpointStats where
  calls : ℕ
  cost : ℚ
deriving DecidableEq

/-- One entry of `data.history`. -/
structure HistoryEntry where
  timestamp : String
  model : String
  endpoint : String
  inputTokens : ℚ
  outputTokens : ℚ
  isImage : Bool
  cost : ℚ
  prompt : String
deriving DecidableEq

/-- One entry of `data.assets`. -/
structure AssetEntry where
  timestamp : String
  filename : String
  prompt : String
  model : String
  path : String
deriving DecidableEq

/-- The whole persisted ledger record (`this.data`).  The JS `byModel` and
`byEndpoint` objects are modelled as association lists in insertion order. -/
structure UsageData where
  session : SessionData
  totals : Totals
  byModel : List (String × ModelStats)
  byEndpoint : List (String × EndpointStats)
  history : List HistoryEntry
  assets : List AssetEntry
deriving DecidableEq

/-- Constant `DEFAULT_BUDGET` (usage-tracker.js line 28). -/
def DEFAULT_BUDGET : ℚ := (10.00 : ℚ)

/-- Function `getDefaultData()`; the wall-clock ISO timestamp is passed in explicitly. -/
def getDefaultData (now : String) : UsageData :=
  { session := { startTime := now, budget := DEFAULT_BUDGET, budgetUsed := 0 }
    totals := { apiCalls := 0, inputTokens := 0, outputTokens := 0, imagesGenerated := 0, estimatedCost := 0 }
    byModel := []
    byEndpoint := []
    history := []
    assets := [] }

/-- The arguments of one `track()` call (JS destructured parameter with its
defaults made explicit at call sites). -/
structure TrackParams where
  model : String
  endpoint : String
  inputTokens : ℚ
  outputTokens : ℚ
  isImage : Bool
  prompt : String

/-- The object returned by `track()`. -/
structure TrackReturn where
  cost : ℚ
  budgetRemaining : ℚ
  overBudget : Bool
deriving DecidableEq

/-- The `byModel` update: initialize the key on first use (appended in insertion
order), then accumulate. -/
def bumpModel (l : List (String × ModelStats)) (m : String) (it ot c : ℚ) :
    List (String × ModelStats) :=
  match l.lookup m with
  | none => l ++ [(m, { calls := 1, inputTokens := it, outputTokens := ot, cost := c })]
  | some st =>
      l.map (fun kv =>
        if kv.1 = m then
          (m, { calls := st.calls + 1, inputTokens := st.inputTokens + it,
                outputTokens := st.outputTokens + ot, cost := st.cost + c })
        else kv)

/-- The `byEndpoint` update, same scheme. -/
def bumpEndpoint (l : List (String × EndpointStats)) (ep : String) (c : ℚ) :
    List (String × EndpointStats) :=
  match l.lookup ep with
  | none => l ++ [(ep, { calls := 1, cost := c })]
  | some st =>
      l.map (fun kv =>
        if kv.1 = ep then (ep, { calls := st.calls + 1, cost := st.cost + c }) else kv)

/-- Method `track()` (usage-tracker.js lines 86-146): compute the cost (flat per-image
price for image calls, else per-1K-token prices with `||` fallbacks), update
totals, session.budgetUsed, per-model and per-endpoint accumulators, prepend
the history entry capped at 100, and return the cost/budget summary.  The
timestamp is passed in explicitly; the synchronous `save()` is the identity on
the in-memory record. -/
def track (data : UsageData) (timestamp : String) (p : TrackParams) :
    UsageData × TrackReturn :=
  let pricing := lookupPricing p.model
  let cost :=
    if p.isImage then numOr pricing.perImage ((0.02 : ℚ))
    else (p.inputTokens / 1000) * numOr pricing.input ((0.0001 : ℚ)) +
         (p.outputTokens / 1000) * numOr pricing.output ((0.0002 : ℚ))
  let newImages := if p.isImage then data.totals.imagesGenerated + 1 else data.totals.imagesGenerated
  let newTotals : Totals :=
    { apiCalls := data.totals.apiCalls + 1
      inputTokens := data.totals.inputTokens + p.inputTokens
      outputTokens := data.totals.outputTokens + p.outputTokens
      imagesGenerated := newImages
      estimatedCost := data.totals.estimatedCost + cost }
  let newUsed := data.session.budgetUsed + cost
  let entry : HistoryEntry :=
    { timestamp := timestamp, model := p.model, endpoint := p.endpoint
      inputTokens := p.inputTokens, outputTokens := p.outputTokens
      isImage := p.isImage, cost := cost
      prompt := String.mk (p.prompt.data.take 100) }
  let newData : UsageData :=
    { session := { data.session with budgetUsed := newUsed }
      totals := newTotals
      byModel := bumpModel data.byModel p.model p.inputTokens p.outputTokens cost
      byEndpoint := bumpEndpoint data.byEndpoint p.endpoint cost
      history := (entry :: data.history).take 100
      assets := data.assets }
  (newData,
   { cost := cost
     budgetRemaining := data.session.budget - newUsed
     overBudget := decide (newUsed > data.session.budget) })

/-- The object returned by `checkBudget()`. -/
structure BudgetCheck where
  allowed : Bool
  remaining : ℚ
  estimatedCost : ℚ
deriving DecidableEq

/-- Method `checkBudget(estimatedCost)` (usage-tracker.js lines 189-196). -/
def checkBudget (data : UsageData) (estimatedCost : ℚ) : BudgetCheck :=
  let remaining := data.session.budget - data.session.budgetUsed
  { allowed := decide (remaining ≥ estimatedCost)
    remaining := remaining
    estimatedCost := estimatedCost }

/-- Method `setBudget(amount)` (usage-tracker.js lines 201-204). -/
def setBudget (data : UsageData) (amount : ℚ) : UsageData :=
  { data with session := { data.session with budget := amount } }

/-- Method `resetSession()` (usage-tracker.js lines 209-212): the whole record is
replaced by `getDefaultData()`. -/
def resetSession (_data : UsageData) (now : String) : UsageData :=
  getDefaultData now

/-! Section: src/server.js : /api/generate-asset budget gate (lines 358-382) -/

/-- What the handler does before any model call. -/
inductive AssetGateOutcome where
  | badRequest : AssetGateOutcome
  | budgetExceeded (remaining : ℚ) : AssetGateOutcome
  | proceed : AssetGateOutcome
deriving DecidableEq

/-- The pre-model-call prefix of the `/api/generate-asset` handler: reject a
falsy `prompt` with 400; then consult `checkBudget(0.02)` and reject with the
402 budget-exceeded error when not allowed; only otherwise reach the
`generateUIAsset` model call (`proceed`). -/
def generateAssetGate (data : UsageData) (prompt : Js) : AssetGateOutcome :=
  if prompt.truthy = false then AssetGateOutcome.badRequest
  else
    let budgetCheck := checkBudget data ((0.02 : ℚ))
    if budgetCheck.allowed = false then AssetGateOutcome.budgetExceeded budgetCheck.remaining
    else AssetGateOutcome.proceed

/-! Section: Orchestrator runFlowState (src/unnamed/part_001 lines 6164-6294)

The Inspection and Patch services (`inspect`, `operateOnCode`) are network
calls; they are modelled as oracles indexed by the call number.  `inspect`
returns `{success, data, error?}`; its two-constructor model identifies a call
outcome with either an error string (`success:false`) or a report
(`success:true`).  `fs` writes are collected as a list of (path, content)
pairs. -/

/-- Outcome of one Inspection Service call. -/
inductive InspRes where
  | err (e : String) : InspRes
  | ok (data : ReportData) : InspRes

/-- Outcome of one Patch (Surgeon) Service call: on success the code is a
string (`parseSurgeonResponse` guarantees `success == (code != null)`). -/
inductive SurgRes where
  | err (e : String) : SurgRes
  | ok (code : String) : SurgRes

/-- The `iterResult.inspection` field. -/
inductive IterInspection where
  | errI (e : String) : IterInspection
  | dataI (d : ReportData) : IterInspection

/-- The `iterResult.surgery` field (`noneS` = still `null`). -/
inductive IterSurgery where
  | noneS : IterSurgery
  | errS (e : String) : IterSurgery
  | okS (codeLength : ℕ) : IterSurgery

/-- One element of `result.iterations`. -/
structure IterRec where
  iteration : ℕ
  inspection : IterInspection
  surgery : IterSurgery
  verified : Bool

/-- The orchestrator result object. -/
structure FlowResult where
  success : Bool
  iterations : List IterRec
  finalCode : Option String
  previewPath : Option String
  assetPrompt : Js
  summary : String

/-- How the `while` loop was left: an early `return result`, or falling
through to the preview-writing epilogue (via `break` or an exhausted
iteration bound).  Both carry the number of inspection and patch calls
made so far. -/
inductive LoopExit where
  | ret (r : FlowResult) (inspCalls patchCalls : ℕ) : LoopExit
  | fall (currentCode : String) (iters : List IterRec) (assetPrompt : Js)
      (inspCalls patchCalls : ℕ) : LoopExit

/-- The `while (iteration < maxIterations)` loop.  `fuel` is the number of
remaining permitted iterations, `itDone` the number already performed.  Note
that every path through the body ends in `return` or `break` (the `verify`
conditional breaks in both branches), exactly as in the source. -/
def healLoop (insp : ℕ → InspRes) (surg : ℕ → SurgRes) (verify : Bool) :
    ℕ → ℕ → String → List IterRec → Js → ℕ → ℕ → LoopExit
  | 0, _, code, iters, ap, ni, np => LoopExit.fall code iters ap ni np
  | _fuel + 1, itDone, code, iters, ap, ni, np =>
    let iteration := itDone + 1
    match insp ni with
    | InspRes.err e =>
        LoopExit.ret
          { success := false
            iterations := iters ++ [{ iteration := iteration, inspection := IterInspection.errI e,
                                      surgery := IterSurgery.noneS, verified := false }]
            finalCode := none, previewPath := none, assetPrompt := ap
            summary := "Inspection failed: " ++ e }
          (ni + 1) np
    | InspRes.ok d =>
      if d.looks_good.truthy then
        LoopExit.ret
          { success := true
            iterations := iters ++ [{ iteration := iteration, inspection := IterInspection.dataI d,
                                      surgery := IterSurgery.noneS, verified := false }]
            finalCode := some code, previewPath := none, assetPrompt := ap
            summary :=
              if iteration = 1 then "No defects detected — UI passed inspection."
              else "Fixed after " ++ toString (iteration - 1) ++ " iteration(s)." }
          (ni + 1) np
      else
        let ap2 := if d.needs_asset_generation.truthy then d.asset_generation_prompt else ap
        match surg np with
        | SurgRes.err e =>
            LoopExit.ret
              { success := false
                iterations := iters ++ [{ iteration := iteration, inspection := IterInspection.dataI d,
                                          surgery := IterSurgery.errS e, verified := false }]
                finalCode := none, previewPath := none, assetPrompt := ap2
                summary := "Surgery failed: " ++ e }
              (ni + 1) (np + 1)
        | SurgRes.ok newCode =>
            let iters2 := iters ++ [{ iteration := iteration, inspection := IterInspection.dataI d,
                                      surgery := IterSurgery.okS newCode.length, verified := false }]
            if verify = false then
              -- "Skipping verification (verify=false)" — break
              LoopExit.fall newCode iters2 ap2 (ni + 1) (np + 1)
            else
              -- "Verification requires re-screenshot of updated UI" — break
              LoopExit.fall newCode iters2 ap2 (ni + 1) (np + 1)

/-- The `path.dirname` / filename split: split at the last slash
(`"."` when there is none). -/
def splitDirFile (p : String) : String × String :=
  match (p.data.reverse.findIdx? (fun c => c = '/')) with
  | none => (".", p)
  | some k =>
      let pos := p.data.length - 1 - k
      (String.mk (p.data.take pos), String.mk (p.data.drop (pos + 1)))

/-- Split a filename into stem and `path.extname`-style extension (from the
last dot; a dot at position 0 yields no extension). -/
def extSplit (cs : List Char) : List Char × List Char :=
  match (cs.reverse.findIdx? (fun c => c = '.')) with
  | none => (cs, [])
  | some k =>
      let pos := cs.length - 1 - k
      if pos = 0 then (cs, []) else (cs.take pos, cs.drop pos)

/-- Join `path.join(dir, file)` for the two shapes the orchestrator produces. -/
def joinPath (dir file : String) : String :=
  if dir = "." then file else dir ++ "/" ++ file

/-- The preview artifact path:
`path.join(dir, base + ".flowstate-preview" + ext)`. -/
def previewPathOf (codePath : String) : String :=
  let (dir, file) := splitDirFile codePath
  let (stem, ext) := extSplit file.data
  joinPath dir (String.mk stem ++ ".flowstate-preview" ++ String.mk ext)

/-- The full outcome of one `runFlowState` invocation: the result object, the
files written (path, content), and the number of inspection and patch calls. -/
structure FlowOutput where
  result : FlowResult
  writes : List (String × String)
  inspCalls : ℕ
  patchCalls : ℕ

/-- Function `runFlowState` (src/unnamed/part_001 lines 6164-6294): run the loop from
the initial file content; an early `return` yields that result with no file
written; falling through writes the preview artifact (and, under `autoApply`,
the original path) and returns the success result with the summary counting
the first iteration inspection defects
(`result.iterations[0]?.inspection?.visual_defects?.length || 0`). -/
def runFlowState (insp : ℕ → InspRes) (surg : ℕ → SurgRes)
    (codePath initialCode : String) (autoApply verify : Bool)
    (maxIterations : ℕ) : FlowOutput :=
  match healLoop insp surg verify maxIterations 0 initialCode [] Js.null 0 0 with
  | LoopExit.ret r ni np => { result := r, writes := [], inspCalls := ni, patchCalls := np }
  | LoopExit.fall code iters ap ni np =>
    let pp := previewPathOf codePath
    let writes := [(pp, code)] ++ (if autoApply then [(codePath, code)] else [])
    let firstDefects :=
      match iters with
      | { inspection := IterInspection.dataI d, .. } :: _ => d.visual_defects.length
      | _ => 0
    { result :=
        { success := true, iterations := iters, finalCode := some code,
          previewPath := some pp, assetPrompt := ap,
          summary := "Fixed " ++ toString firstDefects ++ " defects." }
      writes := writes, inspCalls := ni, patchCalls := np }

/-! Section: Helper lemmas -/

/-- The value `x || null` is either truthy or exactly `null`. -/
theorem jsOr_null_truthy_or (a : Js) :
    (jsOr a Js.null).truthy = true ∨ jsOr a Js.null = Js.null := by
  unfold jsOr
  split
  · left; assumption
  · right; rfl

/-- Shape of a successfully validated report: the two validated fields are JS
booleans, and the unvalidated `asset_generation_prompt` is only known to be
truthy-or-null. -/
theorem parseCore_ok_shape (parsed? : Option Js) (d : ReportData)
    (h : parseCore parsed? = Except.ok d) :
    d.looks_good.isBool = true ∧ d.needs_asset_generation.isBool = true ∧
      (d.asset_generation_prompt.truthy = true ∨ d.asset_generation_prompt = Js.null) := by
  unfold parseCore at h
  repeat' split at h
  all_goals try exact Except.noConfusion h
  injection h with h
  subst h
  exact ⟨rfl, rfl, jsOr_null_truthy_or _⟩

/-- Pushing elements one by one under a static predicate is append-of-filter. -/
theorem foldl_push_filter {α : Type} (p : α → Bool) :
    ∀ (l acc : List α),
      l.foldl (fun acc a => if p a then acc else acc ++ [a]) acc =
        acc ++ l.filter (fun a => !p a) := by
  intro l
  induction l with
  | nil => intro acc; simp
  | cons a t ih =>
      intro acc
      by_cases hp : p a = true
      · simp [hp, ih]
      · simp [hp, ih]

/-! Section: Claim C1 -/

/-- The DefectReport shape exactly as the claim states it: `looks_good` a
boolean, `needs_asset_generation` a boolean, `asset_generation_prompt` a
string or null.  (The claimed "visual_defects is an array" holds by
construction in the embedding — `visual_defects : List DefectOut` — so it is
not part of this predicate.)  This predicate follows the claim wording; it is
compared against what `parseInspectorResponse` actually produces. -/
def claimedDefectReportShape (d : ReportData) : Bool :=
  d.looks_good.isBool && d.needs_asset_generation.isBool &&
    (d.asset_generation_prompt.isStr || d.asset_generation_prompt.isNull)

/-- The `JSON.parse` result of the valid JSON text
`{"looks_good":true,"visual_defects":[],"needs_asset_generation":false,"asset_generation_prompt":5}`:
all three validated fields are well-typed, but `asset_generation_prompt` is the
truthy number 5. -/
def c1BadInput : Js :=
  Js.obj [("looks_good", Js.bool true), ("visual_defects", Js.arr []),
          ("needs_asset_generation", Js.bool false), ("asset_generation_prompt", Js.num 5)]

/-- C1 (counterexample): on the valid JSON input `c1BadInput` the parser
succeeds, but the returned data has `asset_generation_prompt = 5`, which is
neither a string nor null — the claimed shape is violated, because
`asset_generation_prompt` is never validated and `x || null` passes any
truthy value through. -/
theorem c1_counterexample :
    claimedDefectReportShape (parseInspectorResponse (some c1BadInput)).data = false := by
  decide

/-- C1 (amended): for every outcome of `JSON.parse` (hence for every input
string), `parseInspectorResponse` never throws (it is a total function whose
`catch` path is the fallback report) and returns data whose `looks_good` and
`needs_asset_generation` are booleans and whose `visual_defects` is an array
(by construction); `asset_generation_prompt` is truthy or exactly null, but
need not be a string. -/
theorem c1_parse_total_shape (parsed? : Option Js) :
    (parseInspectorResponse parsed?).data.looks_good.isBool = true ∧
    (parseInspectorResponse parsed?).data.needs_asset_generation.isBool = true ∧
    ((parseInspectorResponse parsed?).data.asset_generation_prompt.truthy = true ∨
      (parseInspectorResponse parsed?).data.asset_generation_prompt = Js.null) := by
  unfold parseInspectorResponse
  cases hc : parseCore parsed? with
  | ok d => simpa using parseCore_ok_shape parsed? d hc
  | error e => exact ⟨rfl, rfl, Or.inr rfl⟩

/-! Section: Claim C2 -/

/-- C2: whenever the `try` body of `parseInspectorResponse` throws (parse
failure, top-level validation failure — any caught error), the result is the
fallback report: `looks_good` is `false` (never true on this path), exactly
one defect whose id is `"defect-parse-error"` and whose issue is
`"⚠️ Parse error — manual review required"`, and `needs_asset_generation`
is `false`. -/
theorem c2_fallback_report (parsed? : Option Js)
    (h : (parseInspectorResponse parsed?).success = false) :
    (parseInspectorResponse parsed?).data = fallbackData ∧
    fallbackData.looks_good = Js.bool false ∧
    fallbackData.visual_defects = [parseErrorDefect] ∧
    parseErrorDefect.id = Js.str ("defect-parse-error") ∧
    parseErrorDefect.issue = Js.str ("⚠️ Parse error — manual review required") ∧
    fallbackData.needs_asset_generation = Js.bool false := by
  unfold parseInspectorResponse at h ⊢
  cases hc : parseCore parsed? with
  | ok d => rw [hc] at h; simp at h
  | error e => exact ⟨rfl, rfl, rfl, rfl, rfl, rfl⟩

/-- C2 witness: the hypothesis holds and the theorem applies at the concrete
input `none` (a thrown `JSON.parse`, e.g. the empty input string). -/
theorem c2_fallback_report_witness :
    (parseInspectorResponse none).success = false ∧
    ((parseInspectorResponse none).data = fallbackData ∧
     fallbackData.looks_good = Js.bool false ∧
     fallbackData.visual_defects = [parseErrorDefect] ∧
     parseErrorDefect.id = Js.str ("defect-parse-error") ∧
     parseErrorDefect.issue = Js.str ("⚠️ Parse error — manual review required") ∧
     fallbackData.needs_asset_generation = Js.bool false) :=
  ⟨rfl, c2_fallback_report none rfl⟩

/-! Section: Claim C6 -/

/-- C6: `parseSurgeonResponse "ok"` fails with `code = null` (the extracted
code has length 2, below the threshold 10); the fenced input
` ```jsx\nconst x = 1;\n``` ` succeeds with exactly the fence-stripped,
trimmed code `const x = 1;`; and for every input, `success = true` iff
`code` is non-null. -/
theorem c6_surgeon_parse :
    parseSurgeonResponse ("ok") =
      { success := false, code := none, error := some ("Response too short to be valid code") } ∧
    parseSurgeonResponse ("```jsx\nconst x = 1;\n```") =
      { success := true, code := some ("const x = 1;"), error := none } ∧
    (∀ t : String, (parseSurgeonResponse t).success = true ↔ (parseSurgeonResponse t).code ≠ none) := by
  refine ⟨by decide, by decide, ?_⟩
  intro t
  unfold parseSurgeonResponse
  dsimp only
  split
  · simp
  · simp

/-! Section: Claim C5 -/

/-- C5: merging a defect list with itself adds nothing (same length — every
remote key is already a local key), and in general `mergeDefects` is the local
list in order followed by exactly those remote defects whose 30-character
lowercased issue prefix matches no local defect. -/
theorem c5_merge_dedup :
    (∀ L : List HDefect,
      (mergeDefects L (L.map MergeItem.objD)).length = L.length) ∧
    (∀ (locals : List HDefect) (api : List MergeItem),
      mergeDefects locals api =
        locals.map MergeItem.objD ++
          api.filter (fun a => !((locals.map localKey).contains (apiKey a)))) := by
  have hmerge : ∀ (locals : List HDefect) (api : List MergeItem),
      mergeDefects locals api =
        locals.map MergeItem.objD ++
          api.filter (fun a => !((locals.map localKey).contains (apiKey a))) := by
    intro locals api
    unfold mergeDefects
    exact foldl_push_filter _ api _
  refine ⟨?_, hmerge⟩
  intro L
  rw [hmerge]
  have hfil : (L.map MergeItem.objD).filter
      (fun a => !((L.map localKey).contains (apiKey a))) = [] := by
    rw [List.filter_eq_nil_iff]
    intro a ha
    obtain ⟨dd, hd, rfl⟩ := List.mem_map.mp ha
    have hmem : localKey dd ∈ L.map localKey := List.mem_map.mpr ⟨dd, hd, rfl⟩
    have hcont : (L.map localKey).contains (apiKey (MergeItem.objD dd)) = true :=
      List.elem_iff.mpr hmem
    simp
    exact ⟨dd, hd, rfl⟩
  rw [hfil]
  simp

/-! Section: Claim C7 -/

/-- A ledger with a configured budget of $0.01 and nothing spent. -/
def ledgerCent : UsageData :=
  { getDefaultData ("t0") with
    session := { startTime := "t0", budget := ((0.01 : ℚ)), budgetUsed := 0 } }

/-- C7: `checkBudget` allows a call iff the remaining budget
(`budget - budgetUsed`) covers the estimated cost; with budget $0.01, spent
$0, and estimated cost $0.02 it refuses; and on that ledger the
`/api/generate-asset` handler answers the budget-exceeded error before
reaching the model call. -/
theorem c7_budget_gate :
    (∀ (data : UsageData) (est : ℚ),
      (checkBudget data est).allowed = true ↔
        data.session.budget - data.session.budgetUsed ≥ est) ∧
    (checkBudget ledgerCent ((0.02 : ℚ))).allowed = false ∧
    generateAssetGate ledgerCent (Js.str ("generate a hero image")) =
      AssetGateOutcome.budgetExceeded (((0.01 : ℚ)) - 0) := by
  have hnot : ¬(((0.01 : ℚ)) - 0 ≥ ((0.02 : ℚ))) := by norm_num
  have hallow : (checkBudget ledgerCent ((0.02 : ℚ))).allowed = false := by
    unfold checkBudget ledgerCent getDefaultData
    exact decide_eq_false hnot
  refine ⟨?_, hallow, ?_⟩
  · intro data est
    unfold checkBudget
    exact decide_eq_true_iff
  · unfold generateAssetGate
    rw [show (Js.str ("generate a hero image")).truthy = true from by decide]
    simp only [hallow]
    simp [checkBudget, ledgerCent, getDefaultData]

/-! Section: Claim C8 -/

/-- The arguments of the non-image `track()` call of claim C8. -/
def textCallParams (ep pr : String) : TrackParams :=
  { model := "gemini-3-pro-preview", endpoint := ep, inputTokens := 1000,
    outputTokens := 500, isImage := false, prompt := pr }

/-- The arguments of one image `track()` call with arbitrary token fields. -/
def imageCallParams (ep pr : String) (it ot : ℚ) : TrackParams :=
  { model := "gemini-2.0-flash-preview-image-generation", endpoint := ep,
    inputTokens := it, outputTokens := ot, isImage := true, prompt := pr }

/-- C8: one non-image `track()` call of 1000 input / 500 output tokens on the
model priced 0.00025/0.0005 per 1K tokens raises `totals.estimatedCost` by
exactly 0.0005 and leaves `totals.imagesGenerated` unchanged; one image call
raises `totals.imagesGenerated` by exactly 1 and `totals.estimatedCost` by the
flat per-image price 0.02, whatever the token arguments are. -/
theorem c8_ledger_accounting (data : UsageData) (ts ep pr : String) :
    ((track data ts (textCallParams ep pr)).1.totals.estimatedCost =
      data.totals.estimatedCost + ((0.0005 : ℚ))) ∧
    ((track data ts (textCallParams ep pr)).1.totals.imagesGenerated =
      data.totals.imagesGenerated) ∧
    (∀ it ot : ℚ,
      ((track data ts (imageCallParams ep pr it ot)).1.totals.imagesGenerated =
        data.totals.imagesGenerated + 1) ∧
      ((track data ts (imageCallParams ep pr it ot)).1.totals.estimatedCost =
        data.totals.estimatedCost + ((0.02 : ℚ)))) := by
  have hp1 : lookupPricing ("gemini-3-pro-preview") =
      { input := some ((0.00025 : ℚ)), output := some ((0.0005 : ℚ)), perImage := none } := rfl
  have hp2 : lookupPricing ("gemini-2.0-flash-preview-image-generation") =
      { input := none, output := none, perImage := some ((0.02 : ℚ)) } := rfl
  have h25 : numOr (some ((0.00025 : ℚ))) ((0.0001 : ℚ)) = ((0.00025 : ℚ)) := by
    norm_num [numOr]
  have h05 : numOr (some ((0.0005 : ℚ))) ((0.0002 : ℚ)) = ((0.0005 : ℚ)) := by
    norm_num [numOr]
  have h02 : numOr (some ((0.02 : ℚ))) ((0.02 : ℚ)) = ((0.02 : ℚ)) := by
    norm_num [numOr]
  refine ⟨?_, ?_, ?_⟩
  · simp only [track, textCallParams, hp1, h25, h05]
    norm_num
  · simp only [track, textCallParams, hp1, h25, h05]
    norm_num
  · intro it ot
    constructor
    · simp only [track, imageCallParams, hp2, h02]
      norm_num
    · simp only [track, imageCallParams, hp2, h02]
      norm_num

/-! Section: Claim C9 -/

/-- C9: `resetSession` replaces the entire ledger record with
`getDefaultData()`: the budget ceiling returns to the hardcoded default 10.00
no matter what `setBudget` had configured before, the session `startTime` is
replaced by the current clock value, and all counters, history, asset records
and `budgetUsed` are cleared. -/
theorem c9_reset_session (data : UsageData) (amount : ℚ) (now : String) :
    resetSession (setBudget data amount) now = getDefaultData now ∧
    (resetSession (setBudget data amount) now).session.budget = DEFAULT_BUDGET ∧
    DEFAULT_BUDGET = 10 ∧
    (resetSession data now).session.startTime = now ∧
    (resetSession data now).session.budgetUsed = 0 ∧
    (resetSession data now).totals =
      { apiCalls := 0, inputTokens := 0, outputTokens := 0, imagesGenerated := 0, estimatedCost := 0 } ∧
    (resetSession data now).byModel = [] ∧
    (resetSession data now).byEndpoint = [] ∧
    (resetSession data now).history = [] ∧
    (resetSession data now).assets = [] :=
  ⟨rfl, rfl, by norm_num [DEFAULT_BUDGET], rfl, rfl, rfl, rfl, rfl, rfl, rfl⟩

/-! Section: Claim C10 -/

/-- Indexing through a successful defect map: element `i` of the output is the
normalization of element `i` of the input (at the shifted running index). -/
theorem normalizeDefects_getElem :
    ∀ (ds : List Js) (start : ℕ) (outs : List DefectOut) (i : ℕ) (d : Js),
      normalizeDefects start ds = Except.ok outs → ds[i]? = some d →
      ∃ out, outs[i]? = some out ∧ normalizeDefect (start + i) d = Except.ok out := by
  intro ds
  induction ds with
  | nil => intro start outs i d h hget; simp at hget
  | cons a t ih =>
      intro start outs i d h hget
      unfold normalizeDefects at h
      cases hna : normalizeDefect start a with
      | error e => rw [hna] at h; exact Except.noConfusion h
      | ok x =>
        rw [hna] at h
        cases hnt : normalizeDefects (start + 1) t with
        | error e => rw [hnt] at h; exact Except.noConfusion h
        | ok xs =>
          rw [hnt] at h
          injection h with h
          subst h
          cases i with
          | zero =>
              simp only [List.getElem?_cons_zero, Option.some.injEq] at hget
              subst hget
              exact ⟨x, by simp, by simpa using hna⟩
          | succ j =>
              simp only [List.getElem?_cons_succ] at hget
              obtain ⟨out, ho, hn⟩ := ih (start + 1) xs j d hnt hget
              refine ⟨out, by simpa using ho, ?_⟩
              have harith : start + 1 + j = start + (j + 1) := by omega
              rwa [harith] at hn

/-- C10: in a successfully normalized report, a rich-object defect entry whose
`issue` is falsy (absent, `null`, `""`, `0`, `false`) but whose `description`
is a non-empty string gets that description as its `issue`; the default
`"Unknown issue"` is used only when `issue` and `description` are both falsy. -/
theorem c10_issue_defaulting (ds : List Js) (outs : List DefectOut) (i : ℕ)
    (fields : List (String × Js))
    (hnorm : normalizeDefects 0 ds = Except.ok outs)
    (hd : ds[i]? = some (Js.obj fields)) :
    (∀ (ji : Js) (s : String),
      (Js.obj fields).getProp ("issue") = Except.ok ji → ji.truthy = false →
      (Js.obj fields).getProp ("description") = Except.ok (Js.str s) → s ≠ "" →
      ∃ out, outs[i]? = some out ∧ out.issue = Js.str s) ∧
    (∀ (ji jd : Js),
      (Js.obj fields).getProp ("issue") = Except.ok ji → ji.truthy = false →
      (Js.obj fields).getProp ("description") = Except.ok jd → jd.truthy = false →
      ∃ out, outs[i]? = some out ∧ out.issue = Js.str ("Unknown issue")) := by
  obtain ⟨out, ho, hn⟩ := normalizeDefects_getElem ds 0 outs i _ hnorm hd
  constructor
  · intro ji s hji htr hjd hs
    refine ⟨out, ho, ?_⟩
    unfold normalizeDefect at hn
    simp only [Js.getProp] at hn hji hjd
    injection hji with hji
    injection hjd with hjd
    rw [hji, hjd] at hn
    injection hn with hn
    subst hn
    have hstr : (Js.str s).truthy = true := by
      simp [Js.truthy, hs]
    simp [jsOr, htr, hstr]
  · intro ji jd hji htr hjd htr2
    refine ⟨out, ho, ?_⟩
    unfold normalizeDefect at hn
    simp only [Js.getProp] at hn hji hjd
    injection hji with hji
    injection hjd with hjd
    rw [hji, hjd] at hn
    injection hn with hn
    subst hn
    simp [jsOr, htr, htr2]

/-- The defect array of the C10 witness: one rich defect with only a
`description`, and one empty rich defect. -/
def c10ds : List Js :=
  [Js.obj [("description", Js.str ("Button overflows container"))], Js.obj []]

/-- The normalization of `c10ds`. -/
def c10outs : List DefectOut :=
  [{ id := Js.str ("defect-1"), element := Js.str ("unknown"), element_text := Js.null,
     selector_hint := Js.str ("*"), issue := Js.str ("Button overflows container"),
     expected := Js.null, why := Js.null },
   { id := Js.str ("defect-2"), element := Js.str ("unknown"), element_text := Js.null,
     selector_hint := Js.str ("*"), issue := Js.str ("Unknown issue"),
     expected := Js.null, why := Js.null }]

/-- C10 witness: the hypotheses hold and the theorem applies at the concrete
two-defect array `c10ds` — the first defect takes its description as issue,
the second falls back to `"Unknown issue"`. -/
theorem c10_issue_defaulting_witness :
    (normalizeDefects 0 c10ds = Except.ok c10outs) ∧
    (∃ out, c10outs[0]? = some out ∧ out.issue = Js.str ("Button overflows container")) ∧
    (∃ out, c10outs[1]? = some out ∧ out.issue = Js.str ("Unknown issue")) :=
  ⟨rfl,
   (c10_issue_defaulting c10ds c10outs 0 _ rfl rfl).1 Js.undefined
     ("Button overflows container") rfl rfl rfl (by decide),
   (c10_issue_defaulting c10ds c10outs 1 _ rfl rfl).2 Js.undefined Js.undefined
     rfl rfl rfl rfl⟩

/-! Section: Claims C3 and C4 -/

/-- Inspection-call count of a loop exit. -/
def loopInspCalls : LoopExit → ℕ
  | LoopExit.ret _ ni _ => ni
  | LoopExit.fall _ _ _ ni _ => ni

/-- Patch-call count of a loop exit. -/
def loopPatchCalls : LoopExit → ℕ
  | LoopExit.ret _ _ np => np
  | LoopExit.fall _ _ _ _ np => np

/-- The loop makes at most `fuel` additional inspection and patch calls
(in fact at most one of each: every body path returns or breaks). -/
theorem healLoop_calls_le (insp : ℕ → InspRes) (surg : ℕ → SurgRes) (verify : Bool)
    (fuel itDone : ℕ) (code : String) (iters : List IterRec) (ap : Js) (ni np : ℕ) :
    loopInspCalls (healLoop insp surg verify fuel itDone code iters ap ni np) ≤ ni + fuel ∧
    loopPatchCalls (healLoop insp surg verify fuel itDone code iters ap ni np) ≤ np + fuel := by
  cases fuel with
  | zero => simp [healLoop, loopInspCalls, loopPatchCalls]
  | succ f =>
      simp only [healLoop]
      cases insp ni with
      | err e =>
          constructor <;> simp [loopInspCalls, loopPatchCalls]
      | ok d =>
          cases hg : d.looks_good.truthy with
          | true =>
              simp only [hg]
              constructor <;> simp [loopInspCalls, loopPatchCalls]
          | false =>
              simp only [hg, Bool.false_eq_true, if_false]
              cases surg np with
              | err e =>
                  constructor <;> simp [loopInspCalls, loopPatchCalls]
              | ok c =>
                  cases verify <;>
                    (constructor <;> simp [loopInspCalls, loopPatchCalls])

/-- The call counters reported by `runFlowState` are those of the loop exit. -/
theorem runFlowState_calls (insp : ℕ → InspRes) (surg : ℕ → SurgRes)
    (codePath initialCode : String) (autoApply verify : Bool) (N : ℕ) :
    (runFlowState insp surg codePath initialCode autoApply verify N).inspCalls =
      loopInspCalls (healLoop insp surg verify N 0 initialCode [] Js.null 0 0) ∧
    (runFlowState insp surg codePath initialCode autoApply verify N).patchCalls =
      loopPatchCalls (healLoop insp surg verify N 0 initialCode [] Js.null 0 0) := by
  unfold runFlowState
  cases healLoop insp surg verify N 0 initialCode [] Js.null 0 0 with
  | ret r ni np => exact ⟨rfl, rfl⟩
  | fall code iters ap ni np => exact ⟨rfl, rfl⟩

/-- Call-count bound for one `runFlowState` invocation. -/
theorem runFlowState_calls_le (insp : ℕ → InspRes) (surg : ℕ → SurgRes)
    (codePath initialCode : String) (autoApply verify : Bool) (N : ℕ) :
    (runFlowState insp surg codePath initialCode autoApply verify N).inspCalls ≤ N ∧
    (runFlowState insp surg codePath initialCode autoApply verify N).patchCalls ≤ N := by
  obtain ⟨h1, h2⟩ := runFlowState_calls insp surg codePath initialCode autoApply verify N
  obtain ⟨h3, h4⟩ := healLoop_calls_le insp surg verify N 0 initialCode [] Js.null 0 0
  rw [h1, h2]
  omega

/-- When the first inspection finds defects and the first patch succeeds, the
loop breaks after exactly one pass, whatever `verify` is. -/
theorem healLoop_one_pass (insp : ℕ → InspRes) (surg : ℕ → SurgRes) (verify : Bool)
    (n : ℕ) (code : String) (d0 : ReportData) (c0 : String)
    (hi0 : insp 0 = InspRes.ok d0) (hg0 : d0.looks_good.truthy = false)
    (hs0 : surg 0 = SurgRes.ok c0) :
    healLoop insp surg verify (n + 1) 0 code [] Js.null 0 0 =
      LoopExit.fall c0
        [{ iteration := 1, inspection := IterInspection.dataI d0,
           surgery := IterSurgery.okS c0.length, verified := false }]
        (if d0.needs_asset_generation.truthy then d0.asset_generation_prompt else Js.null)
        1 1 := by
  simp only [healLoop, hi0, hg0, hs0]
  simp

/-- One-pass characterization of `runFlowState` from a defect-found state:
exactly one iteration record, success, preview written — independent of
`verify` and of the iteration bound beyond its positivity. -/
theorem runFlowState_one_pass (insp : ℕ → InspRes) (surg : ℕ → SurgRes)
    (codePath initialCode : String) (autoApply verify : Bool) (n : ℕ)
    (d0 : ReportData) (c0 : String)
    (hi0 : insp 0 = InspRes.ok d0) (hg0 : d0.looks_good.truthy = false)
    (hs0 : surg 0 = SurgRes.ok c0) :
    runFlowState insp surg codePath initialCode autoApply verify (n + 1) =
      { result :=
          { success := true
            iterations := [{ iteration := 1, inspection := IterInspection.dataI d0,
                             surgery := IterSurgery.okS c0.length, verified := false }]
            finalCode := some c0
            previewPath := some (previewPathOf codePath)
            assetPrompt :=
              if d0.needs_asset_generation.truthy then d0.asset_generation_prompt else Js.null
            summary := "Fixed " ++ toString d0.visual_defects.length ++ " defects." }
        writes := [(previewPathOf codePath, c0)] ++ (if autoApply then [(codePath, c0)] else [])
        inspCalls := 1, patchCalls := 1 } := by
  unfold runFlowState
  rw [healLoop_one_pass insp surg verify n initialCode d0 c0 hi0 hg0 hs0]

/-- C3 (amended): `runFlowState` always terminates, with at most `N`
inspection calls and at most `N` patch calls; and under a scripted Inspection
Service that always reports defects and a Patch Service that always succeeds,
it stops after exactly ONE iteration (one inspection call, one patch call)
with `success = true` and the preview artifact written — not after `N`
iterations, because the loop body unconditionally breaks after the first
successful patch. -/
theorem c3_loop_termination (insp : ℕ → InspRes) (surg : ℕ → SurgRes)
    (codePath initialCode : String) (autoApply verify : Bool) (N : ℕ) :
    ((runFlowState insp surg codePath initialCode autoApply verify N).inspCalls ≤ N ∧
     (runFlowState insp surg codePath initialCode autoApply verify N).patchCalls ≤ N) ∧
    (1 ≤ N →
      (∀ k, ∃ d, insp k = InspRes.ok d ∧ d.looks_good.truthy = false) →
      (∀ k, ∃ c, surg k = SurgRes.ok c) →
      (runFlowState insp surg codePath initialCode autoApply verify N).result.success = true ∧
      (runFlowState insp surg codePath initialCode autoApply verify N).result.iterations.length = 1 ∧
      (runFlowState insp surg codePath initialCode autoApply verify N).inspCalls = 1 ∧
      (runFlowState insp surg codePath initialCode autoApply verify N).patchCalls = 1 ∧
      ∃ code, (runFlowState insp surg codePath initialCode autoApply verify N).result.finalCode = some code ∧
        (runFlowState insp surg codePath initialCode autoApply verify N).result.previewPath =
          some (previewPathOf codePath) ∧
        (previewPathOf codePath, code) ∈ (runFlowState insp surg codePath initialCode autoApply verify N).writes) := by
  refine ⟨runFlowState_calls_le insp surg codePath initialCode autoApply verify N, ?_⟩
  intro hN h2 h3
  obtain ⟨d0, hi0, hg0⟩ := h2 0
  obtain ⟨c0, hs0⟩ := h3 0
  cases N with
  | zero => omega
  | succ n =>
      rw [runFlowState_one_pass insp surg codePath initialCode autoApply verify n d0 c0 hi0 hg0 hs0]
      refine ⟨rfl, rfl, rfl, rfl, c0, rfl, rfl, ?_⟩
      simp

/-- A sample defect as the Inspector reports it. -/
def sampleDefect : DefectOut :=
  { id := Js.str ("defect-1"), element := Js.str ("button"), element_text := Js.null,
    selector_hint := Js.str ("button"), issue := Js.str ("Padding inconsistent with sibling inputs"),
    expected := Js.null, why := Js.null }

/-- A report that always finds one defect (`looks_good = false`). -/
def defectReport1 : ReportData :=
  { looks_good := Js.bool false, visual_defects := [sampleDefect],
    needs_asset_generation := Js.bool false, asset_generation_prompt := Js.null }

/-- A scripted Inspection Service that always reports defects. -/
def inspAlwaysDefect : ℕ → InspRes := fun _ => InspRes.ok defectReport1

/-- A scripted Patch Service that always succeeds. -/
def surgAlwaysOk : ℕ → SurgRes :=
  fun _ => SurgRes.ok ("const fixedComponent = 1; export default fixedComponent;")

/-- C3 counterexample: with `maxIterations = 2`, an inspection service that
always reports defects (`inspAlwaysDefect`, a constant function) and a patch
service that always succeeds (`surgAlwaysOk`, a constant function), the run
succeeds and writes the preview — but after exactly 1 iteration, not the
claimed `N = 2`: the loop body breaks unconditionally after the first
successful patch. -/
theorem c3_counterexample :
    (runFlowState inspAlwaysDefect surgAlwaysOk ("comp.jsx") ("code0") false true 2).result.iterations.length = 1 ∧
    (runFlowState inspAlwaysDefect surgAlwaysOk ("comp.jsx") ("code0") false true 2).result.iterations.length ≠ 2 ∧
    (runFlowState inspAlwaysDefect surgAlwaysOk ("comp.jsx") ("code0") false true 2).result.success = true ∧
    (runFlowState inspAlwaysDefect surgAlwaysOk ("comp.jsx") ("code0") false true 2).writes =
      [(("comp.flowstate-preview.jsx"), ("const fixedComponent = 1; export default fixedComponent;"))] := by
  decide

/-- C3 witness: the amended theorem applied at concrete scripted services with
`maxIterations = 3`: hypotheses hold, and the run is a one-iteration success
with the preview artifact written. -/
theorem c3_loop_termination_witness :
    (1 ≤ 3) ∧
    (∀ k, ∃ d, inspAlwaysDefect k = InspRes.ok d ∧ d.looks_good.truthy = false) ∧
    (∀ k, ∃ c, surgAlwaysOk k = SurgRes.ok c) ∧
    ((runFlowState inspAlwaysDefect surgAlwaysOk ("widget.tsx") ("original code") false false 3).result.success = true ∧
     (runFlowState inspAlwaysDefect surgAlwaysOk ("widget.tsx") ("original code") false false 3).result.iterations.length = 1 ∧
     (runFlowState inspAlwaysDefect surgAlwaysOk ("widget.tsx") ("original code") false false 3).inspCalls = 1 ∧
     (runFlowState inspAlwaysDefect surgAlwaysOk ("widget.tsx") ("original code") false false 3).patchCalls = 1 ∧
     ∃ code, (runFlowState inspAlwaysDefect surgAlwaysOk ("widget.tsx") ("original code") false false 3).result.finalCode = some code ∧
       (runFlowState inspAlwaysDefect surgAlwaysOk ("widget.tsx") ("original code") false false 3).result.previewPath =
         some (previewPathOf ("widget.tsx")) ∧
       (previewPathOf ("widget.tsx"), code) ∈ (runFlowState inspAlwaysDefect surgAlwaysOk ("widget.tsx") ("original code") false false 3).writes) :=
  ⟨by omega,
   fun k => ⟨defectReport1, rfl, by decide⟩,
   fun k => ⟨("const fixedComponent = 1; export default fixedComponent;"), rfl⟩,
   (c3_loop_termination inspAlwaysDefect surgAlwaysOk ("widget.tsx") ("original code") false false 3).2
     (by omega)
     (fun k => ⟨defectReport1, rfl, by decide⟩)
     (fun k => ⟨("const fixedComponent = 1; export default fixedComponent;"), rfl⟩)⟩

/-- The `verify` flag changes nothing in the loop: the conditional at the end
of the body breaks in both branches. -/
theorem healLoop_verify_irrel (insp : ℕ → InspRes) (surg : ℕ → SurgRes) :
    ∀ (fuel itDone : ℕ) (code : String) (iters : List IterRec) (ap : Js) (ni np : ℕ),
      healLoop insp surg true fuel itDone code iters ap ni np =
      healLoop insp surg false fuel itDone code iters ap ni np := by
  intro fuel itDone code iters ap ni np
  cases fuel with
  | zero => rfl
  | succ f =>
      simp only [healLoop]
      cases insp ni with
      | err e => rfl
      | ok d =>
          cases hg : d.looks_good.truthy with
          | true => simp [hg]
          | false =>
              simp only [hg, Bool.false_eq_true, if_false]
              cases surg np with
              | err e => rfl
              | ok c => simp

/-- C4: for the same services and inputs, `runFlowState` with `verify = true`
returns exactly the same outcome (result object, writes, call counts) as with
`verify = false`; and from a defect-found first inspection with a successful
patch, both perform exactly one loop pass. -/
theorem c4_verify_equiv (insp : ℕ → InspRes) (surg : ℕ → SurgRes)
    (codePath initialCode : String) (autoApply : Bool) (N : ℕ) :
    runFlowState insp surg codePath initialCode autoApply true N =
      runFlowState insp surg codePath initialCode autoApply false N ∧
    (1 ≤ N →
      (∃ d, insp 0 = InspRes.ok d ∧ d.looks_good.truthy = false) →
      (∃ c, surg 0 = SurgRes.ok c) →
      (runFlowState insp surg codePath initialCode autoApply true N).result.iterations.length = 1 ∧
      (runFlowState insp surg codePath initialCode autoApply false N).result.iterations.length = 1) := by
  have heq : runFlowState insp surg codePath initialCode autoApply true N =
      runFlowState insp surg codePath initialCode autoApply false N := by
    unfold runFlowState
    rw [healLoop_verify_irrel]
  refine ⟨heq, ?_⟩
  intro hN hinsp hsurg
  obtain ⟨d0, hi0, hg0⟩ := hinsp
  obtain ⟨c0, hs0⟩ := hsurg
  cases N with
  | zero => omega
  | succ n =>
      rw [runFlowState_one_pass insp surg codePath initialCode autoApply true n d0 c0 hi0 hg0 hs0,
          runFlowState_one_pass insp surg codePath initialCode autoApply false n d0 c0 hi0 hg0 hs0]
      exact ⟨rfl, rfl⟩

/-- C4 witness: the theorem applied at concrete scripted services (always
defects, always successful patch), `autoApply = true`, `maxIterations = 2`:
both verify modes give equal outcomes and one loop pass. -/
theorem c4_verify_equiv_witness :
    (1 ≤ 2) ∧
    (∃ d, inspAlwaysDefect 0 = InspRes.ok d ∧ d.looks_good.truthy = false) ∧
    (∃ c, surgAlwaysOk 0 = SurgRes.ok c) ∧
    runFlowState inspAlwaysDefect surgAlwaysOk ("card.jsx") ("broken code here") true true 2 =
      runFlowState inspAlwaysDefect surgAlwaysOk ("card.jsx") ("broken code here") true false 2 ∧
    (runFlowState inspAlwaysDefect surgAlwaysOk ("card.jsx") ("broken code here") true true 2).result.iterations.length = 1 ∧
    (runFlowState inspAlwaysDefect surgAlwaysOk ("card.jsx") ("broken code here") true false 2).result.iterations.length = 1 :=
  ⟨by omega,
   ⟨defectReport1, rfl, by decide⟩,
   ⟨("const fixedComponent = 1; export default fixedComponent;"), rfl⟩,
   (c4_verify_equiv inspAlwaysDefect surgAlwaysOk ("card.jsx") ("broken code here") true 2).1,
   ((c4_verify_equiv inspAlwaysDefect surgAlwaysOk ("card.jsx") ("broken code here") true 2).2
     (by omega) ⟨defectReport1, rfl, by decide⟩
     ⟨("const fixedComponent = 1; export default fixedComponent;"), rfl⟩).1,
   ((c4_verify_equiv inspAlwaysDefect surgAlwaysOk ("card.jsx") ("broken code here") true 2).2
     (by omega) ⟨defectReport1, rfl, by decide⟩
     ⟨("const fixedComponent = 1; export default fixedComponent;"), rfl⟩).2⟩

end FlowState
